import Mathlib

/-!
Verification of the epic-wallet repository (owner RPC layer, HTTP node
client, CLI version gate) against its natural-language specification.

Shallow embedding conventions:
* HTTP round-trips are passed in as `Except String _` parameters: the
  caller supplies the outcome the `Client` would have produced, and the
  embedded function performs exactly the branching of the Rust source.
* Machine integers of the source (`u64`, `u16`) are modelled as `Nat`;
  none of the verified paths can overflow them.
* Code of the repository that is not under `src/` (the libwallet slate,
  ledger and versioning internals, and the semver crate) is modelled from
  the spec; each such definition carries a doc comment saying so.
-/

namespace EpicWallet

/-- Error kinds of the wallet error taxonomy (spec section 7) that the
embedded operations can produce. -/
inductive ErrorKind where
  | ClientCallback (msg : String)
  | IncompleteParticipantData
  | SignatureAggregationFailed
  | OutputAlreadyLocked
  | TransactionNotCancellable
  | NotFound
  deriving DecidableEq, Repr

/-- The `NodeVersionInfo` record as used by `get_version_info` in
src/impls/src/node_clients/http.rs. -/
structure NodeVersionInfo where
  node_version : String
  block_header_version : Nat
  verified : Option Bool
  deriving DecidableEq, Repr

/-- The fields of `HTTPNodeClient` (src/impls/src/node_clients/http.rs,
lines 32-37). -/
structure HTTPNodeClient where
  node_url : String
  node_api_secret : Option String
  node_version_info : Option NodeVersionInfo
  deriving DecidableEq, Repr

/-- Whether `pat` occurs at the head of the character list `l`. -/
def headMatches : List Char → List Char → Bool
  | [], _ => true
  | _ :: _, [] => false
  | a :: as, b :: bs => a == b && headMatches as bs

/-- Whether `pat` occurs anywhere inside the character list `l`. -/
def charsContain (pat : List Char) : List Char → Bool
  | [] => pat.isEmpty
  | c :: cs => headMatches pat (c :: cs) || charsContain pat cs

/-- The `err_string.contains("404")` probe of the Rust source: substring
containment on the underlying character lists. -/
def containsSub (s pat : String) : Bool :=
  charsContain pat.data s.data

/-- Embedding of `get_version_info` (src/impls/src/node_clients/http.rs, lines 71-98).
`fetch` is the outcome of the HTTP GET on `/v1/version`; on `Except.error`
it carries the error string the source formats and probes for "404".
Returns the updated client (the source takes `&mut self` and caches a
successful fetch) together with the returned `Option`. -/
def get_version_info (c : HTTPNodeClient)
    (fetch : Except String NodeVersionInfo) :
    HTTPNodeClient × Option NodeVersionInfo :=
  match c.node_version_info with
  | some v => (c, some v)
  | none =>
    match fetch with
    | Except.error e =>
      if containsSub e ("404") then
        (c, some { node_version := "1.0.0"
                 , block_header_version := 1
                 , verified := some false })
      else
        (c, none)
    | Except.ok n =>
      let retval := { n with verified := some true }
      ({ c with node_version_info := some retval }, some retval)

/-- The two index fields of the node api `OutputListing` read by the
embedded client functions; the listing's output payload plays no part in
`height_range_to_pmmr_indices` and is elided. -/
structure OutputListing where
  highest_index : Nat
  last_retrieved_index : Nat
  deriving DecidableEq, Repr

/-- Embedding of `height_range_to_pmmr_indices` (src/impls/src/node_clients/http.rs,
lines 308-333). `node` is the HTTP GET on `/v1/txhashset/heightstopmmr`,
fed the `start_height` and optional `end_height` the source encodes into
the query string. On success the source returns
`(o.last_retrieved_index, o.highest_index)`. -/
def height_range_to_pmmr_indices
    (node : Nat → Option Nat → Except String OutputListing)
    (start_height : Nat) (end_height : Option Nat) :
    Except ErrorKind (Nat × Nat) :=
  match node start_height end_height with
  | Except.ok o => Except.ok (o.last_retrieved_index, o.highest_index)
  | Except.error e => Except.error (ErrorKind.ClientCallback (": " ++ e))

/-- Modelled from the spec: the node side of the `heightstopmmr` endpoint
is not part of this repository. Per spec section 6 the call yields the
`(low_index, high_index)` pair of PMMR positions covering the height
range, so the node is modelled as answering with the low index of the
range in `last_retrieved_index` and the high index in `highest_index`;
`lowIndexOf` and `highIndexOf` abstract its height-to-position maps and
`head` is its chain head height, used when `end_height` is absent. -/
def nodeHeightsToPmmr (lowIndexOf highIndexOf : Nat → Nat) (head : Nat)
    (start_height : Nat) (end_height : Option Nat) : OutputListing :=
  { highest_index := highIndexOf (end_height.getD head)
  , last_retrieved_index := lowIndexOf start_height }

/-- Embedding of `post_tx` (src/impls/src/node_clients/http.rs, lines 101-117).
`post` is the HTTP POST to the node's `push_tx` endpoint, fed the `fluff`
flag the source encodes into the URL. The source takes `&self` plus the
serialized transaction and touches no wallet-side state; the caller's
ledger state is threaded through `ledger` to make that explicit. -/
def post_tx {α : Type} (c : HTTPNodeClient) (ledger : α) (fluff : Bool)
    (post : Bool → Except String Unit) :
    Except ErrorKind Unit × HTTPNodeClient × α :=
  match post fluff with
  | Except.error e =>
    ( Except.error (ErrorKind.ClientCallback ("Posting transaction to node: " ++ e))
    , c, ledger)
  | Except.ok _ => (Except.ok (), c, ledger)

/-- Modelled from the semver crate (an external dependency, not part of
this repository): a parsed `major.minor.patch` version. Pre-release and
build metadata never occur in the version strings this wallet handles. -/
structure SemVer where
  major : Nat
  minor : Nat
  patch : Nat
  deriving DecidableEq, Repr

/-- Modelled from the semver crate: strict precedence order, lexicographic
on (major, minor, patch). -/
def SemVer.lt (a b : SemVer) : Bool :=
  if a.major ≠ b.major then decide (a.major < b.major)
  else if a.minor ≠ b.minor then decide (a.minor < b.minor)
  else decide (a.patch < b.patch)

/-- Modelled from the semver crate: `a <= b` on versions. -/
def SemVer.le (a b : SemVer) : Bool :=
  SemVer.lt a b || a == b

/-- The numeric value of a decimal digit character, `none` otherwise. -/
def digitVal (c : Char) : Option Nat :=
  if c.isDigit then some (c.toNat - 48) else none

/-- Accumulating decimal reading of a character list. -/
def digitsToNatAux : List Char → Nat → Option Nat
  | [], acc => some acc
  | c :: cs, acc =>
    match digitVal c with
    | some d => digitsToNatAux cs (10 * acc + d)
    | none => none

/-- A non-empty all-digit character list read as a decimal number. -/
def digitsToNat : List Char → Option Nat
  | [] => none
  | c :: cs => digitsToNatAux (c :: cs) 0

/-- Split a character list at every dot. -/
def splitDots : List Char → List (List Char)
  | [] => [[]]
  | c :: cs =>
    let rest := splitDots cs
    if c == '.' then [] :: rest
    else
      match rest with
      | [] => [[c]]
      | r :: rs => (c :: r) :: rs

/-- Modelled from the semver crate: `Version::parse` restricted to plain
numeric `major.minor.patch` strings — the shape of every version string
this repository compares; anything else is a parse error. -/
def versionParse (s : String) : Option SemVer :=
  match splitDots s.data with
  | [a, b, c] =>
    match digitsToNat a, digitsToNat b, digitsToNat c with
    | some x, some y, some z => some { major := x, minor := y, patch := z }
    | _, _, _ => none
  | _ => none

/-- Kernel feature flag (spec section 3). -/
inductive KernelFeatures where
  | Plain
  | Coinbase
  | HeightLocked
  deriving DecidableEq, Repr

/-- Modelled from the spec: a Pedersen commitment `v·H + b·G` recorded by
its plaintext coefficient pair (the conservation property of spec section
8 is stated on plaintext test values); the commitment homomorphism is
componentwise addition of the pairs. -/
structure Commit where
  value : Int
  blind : Int
  deriving DecidableEq, Repr

/-- Modelled from the spec: the kernel of spec section 3. The group
elements `excess` and `excess_sig` are recorded by their scalars in the
ℤ-linear model of the curve group. -/
structure TxKernel where
  features : KernelFeatures
  fee : Nat
  lock_height : Nat
  excess : Int
  excess_sig : Int
  deriving DecidableEq, Repr

/-- The `LocatedTxKernel` record as consumed by `get_kernel`: a kernel plus the
height and mmr index the node located it at. -/
structure LocatedTxKernel where
  tx_kernel : TxKernel
  height : Nat
  mmr_index : Nat
  deriving DecidableEq, Repr

/-- Embedding of `get_kernel` (src/impls/src/node_clients/http.rs, lines 136-182).
`fetchVersion` is the HTTP outcome `get_version_info` would consume;
`lookup` is the outcome of the kernel HTTP GET, which the source performs
only after the version gate passes (the `excess` and the height bounds
only shape that URL). Mirrors the source: no version info, an unparseable
version, or a version at most 2.0.0 each yield a `ClientCallback` error
before any lookup. -/
def get_kernel (c : HTTPNodeClient)
    (fetchVersion : Except String NodeVersionInfo)
    (lookup : Except String (Option LocatedTxKernel)) :
    HTTPNodeClient × Except ErrorKind (Option (TxKernel × Nat × Nat)) :=
  let step := get_version_info c fetchVersion
  match step.2 with
  | none =>
    (step.1, Except.error (ErrorKind.ClientCallback ("Unable to get version")))
  | some version =>
    match versionParse version.node_version with
    | none =>
      (step.1, Except.error (ErrorKind.ClientCallback ("Unable to parse version")))
    | some v =>
      if SemVer.le v { major := 2, minor := 0, patch := 0 } then
        (step.1, Except.error (ErrorKind.ClientCallback
          ("Kernel lookup not supported by node, please upgrade it")))
      else
        match lookup with
        | Except.error e =>
          (step.1, Except.error (ErrorKind.ClientCallback ("Kernel lookup: " ++ e)))
        | Except.ok res =>
          (step.1, Except.ok (res.map (fun k => (k.tx_kernel, k.height, k.mmr_index))))

/-- The constant `MIN_COMPAT_NODE_VERSION` (src/src/cmd/wallet.rs, line 25). -/
def MIN_COMPAT_NODE_VERSION : String := "3.0.0"

/-- The comparison `Version::parse(a) < Version::parse(b)` of src/src/cmd/wallet.rs line
51: Rust's derived ordering on `Result` places every `Ok` below every
`Err`, so a failed parse on the left compares not-less against any
right-hand side. -/
def parsedVersionLt (a b : Option SemVer) : Bool :=
  match a, b with
  | some x, some y => SemVer.lt x y
  | some _, none => true
  | none, _ => false

/-- Observable outcome of `wallet_command`: the returned exit code and
whether the requested subcommand was dispatched. -/
structure WalletCommandOutcome where
  exit_code : Nat
  subcommand_ran : Bool
  deriving DecidableEq, Repr

/-- The tail of `wallet_command` (src/src/cmd/wallet.rs, lines 64-86):
dispatch the subcommand and map its result to an exit code. -/
def runSubcommand (commandResult : Except String Unit) : WalletCommandOutcome :=
  match commandResult with
  | Except.ok _ => { exit_code := 0, subcommand_ran := true }
  | Except.error _ => { exit_code := 1, subcommand_ran := true }

/-- Embedding of `wallet_command` (src/src/cmd/wallet.rs, lines 27-87) reduced to its
observable control flow: `versionInfo` is what `get_version_info`
returned for the configured node, `commandResult` the outcome the
dispatched subcommand would produce. A reported version parsing below
`MIN_COMPAT_NODE_VERSION` exits 1 before dispatch; an unreachable node
(`none`) proceeds offline. -/
def wallet_command (versionInfo : Option NodeVersionInfo)
    (commandResult : Except String Unit) : WalletCommandOutcome :=
  match versionInfo with
  | some v =>
    if parsedVersionLt (versionParse v.node_version)
        (versionParse MIN_COMPAT_NODE_VERSION) then
      { exit_code := 1, subcommand_ran := false }
    else runSubcommand commandResult
  | none => runSubcommand commandResult

/-- Modelled from the spec: one signer's contribution
(spec section 3, ParticipantData). Group elements of the Schnorr scheme
are recorded in the ℤ-linear exponent model: `public_blind_excess` and
`public_nonce` stand for `x·G` and `r·G` via their scalars, `part_sig`
for the partial signature scalar `s = r + e·x`. -/
structure ParticipantData where
  id : Nat
  public_blind_excess : Int
  public_nonce : Int
  part_sig : Option Int
  message : Option String
  message_sig : Option Int
  deriving DecidableEq, Repr

/-- Version metadata carried by a slate (spec section 3). -/
structure VersionCompatInfo where
  orig_version : Nat
  version : Nat
  block_header_version : Nat
  deriving DecidableEq, Repr

/-- Modelled from the spec: the Slate of spec section 3, with its
in-progress transaction body flattened into inputs, outputs, kernels and
offset. The libwallet definition is not under src/; only its RPC callers
are. -/
structure Slate where
  num_participants : Nat
  id : String
  tx_inputs : List Commit
  tx_outputs : List Commit
  tx_kernels : List TxKernel
  tx_offset : Int
  amount : Nat
  fee : Nat
  height : Nat
  lock_height : Nat
  ttl_cutoff_height : Option Nat
  participant_data : List ParticipantData
  payment_proof : Option String
  version_info : VersionCompatInfo
  deriving DecidableEq, Repr

/-- Modelled from the spec: the Schnorr challenge over the kernel message
(fee, lock_height, features); any fixed encoding of the message serves
the ℤ-linear model. -/
def kernelChallenge (fee lock_height : Nat) (features : KernelFeatures) : Int :=
  (fee : Int) + 65536 * (lock_height : Int) +
    (match features with
     | KernelFeatures.Plain => 0
     | KernelFeatures.Coinbase => 1
     | KernelFeatures.HeightLocked => 2)

/-- Kernel features a finalized transaction kernel carries: HeightLocked
exactly when the slate has a positive lock height (spec section 3). -/
def kernelFeaturesOf (lock_height : Nat) : KernelFeatures :=
  if lock_height == 0 then KernelFeatures.Plain else KernelFeatures.HeightLocked

/-- Protocol-completeness of a slate: a full complement of participants,
each with a partial signature (spec section 3, Slate invariant). -/
def slateComplete (s : Slate) : Bool :=
  s.participant_data.length == s.num_participants &&
    s.participant_data.all (fun p => p.part_sig.isSome)

/-- Aggregation of the partial signatures (spec section 4.1, Finalize). -/
def sumPartSigs (s : Slate) : Int :=
  (s.participant_data.map (fun p => p.part_sig.getD 0)).sum

/-- Aggregate public nonce of the signing round. -/
def sumPublicNonces (s : Slate) : Int :=
  (s.participant_data.map (fun p => p.public_nonce)).sum

/-- Aggregation of the partial public excesses (spec section 4.1,
Finalize). -/
def sumPublicExcesses (s : Slate) : Int :=
  (s.participant_data.map (fun p => p.public_blind_excess)).sum

/-- Modelled from the spec: the aggregate-signature check against the
kernel message, `s·G = R_total + e·X_total` in the ℤ-linear model. -/
def verifyKernelSig (k : TxKernel) (sumNonce : Int) : Bool :=
  k.excess_sig == sumNonce + kernelChallenge k.fee k.lock_height k.features * k.excess

/-- Sum of the plaintext values of a commitment list. -/
def sumValues (l : List Commit) : Int :=
  (l.map Commit.value).sum

/-- Sum of the blinding factors of a commitment list. -/
def sumBlinds (l : List Commit) : Int :=
  (l.map Commit.blind).sum

/-- Modelled from the spec: the kernel-sum (conservation) check of spec
sections 3 and 8 — on the value axis the plaintext outputs plus the fee
equal the plaintext inputs, and on the blinding axis what remains of
outputs minus inputs is exactly the excess; together: the sum of output
commitments plus the fee commitment equals the sum of input commitments
plus the blinded (zero-value) excess. Verified, not assumed. -/
def conservationOk (s : Slate) (excess : Int) : Bool :=
  sumValues s.tx_outputs + (s.fee : Int) == sumValues s.tx_inputs &&
    sumBlinds s.tx_outputs == sumBlinds s.tx_inputs + excess

/-- The kernel Finalize builds: fee and lock height from the slate,
excess the aggregated public excesses, excess_sig the aggregated partial
signatures (spec section 4.1, Finalize). -/
def finalKernel (s : Slate) : TxKernel :=
  { features := kernelFeaturesOf s.lock_height
  , fee := s.fee
  , lock_height := s.lock_height
  , excess := sumPublicExcesses s
  , excess_sig := sumPartSigs s }

/-- The local re-verification Finalize performs before returning success:
the aggregate signature verifies against the kernel message and the
kernel sums conserve (spec section 4.1, Finalize; section 3, Kernel
invariant). -/
def aggregationOk (s : Slate) : Bool :=
  verifyKernelSig (finalKernel s) (sumPublicNonces s) &&
    conservationOk s (sumPublicExcesses s)

/-- Modelled from the spec: Finalize(Slate) (spec section 4.1); the
libwallet implementation is not under src/, only its RPC caller
(src/api/src/owner_rpc.rs, lines 1325-1330). Requires a complete
participant set with all partial signatures, aggregates them into the
kernel, and re-verifies before returning success. -/
def finalize_tx (s : Slate) : Except ErrorKind Slate :=
  if slateComplete s then
    if aggregationOk s then
      Except.ok { s with tx_kernels := [finalKernel s] }
    else
      Except.error ErrorKind.SignatureAggregationFailed
  else
    Except.error ErrorKind.IncompleteParticipantData

/-- Status of a wallet-local output (spec section 3, Output). -/
inductive OutputStatus where
  | Unspent
  | Locked
  | Spent
  | Unconfirmed
  deriving DecidableEq, Repr

/-- Modelled from the spec: Lock-outputs (spec sections 4.1 and 4.2); the
libwallet implementation is not under src/, only its RPC caller
(src/api/src/owner_rpc.rs, lines 1332-1339). The wallet ledger is the
status map of the outputs, keyed by commitment; the slate's selected
inputs move Unspent → Locked, and the lock is rejected whole whenever any
selected output is not Unspent. -/
def tx_lock_outputs (s : Slate) (ledger : Commit → OutputStatus) :
    Except ErrorKind (Commit → OutputStatus) :=
  if s.tx_inputs.all (fun c => ledger c == OutputStatus.Unspent) then
    Except.ok (fun c =>
      if c ∈ s.tx_inputs then OutputStatus.Locked else ledger c)
  else
    Except.error ErrorKind.OutputAlreadyLocked

/-- Transaction-log entry types (spec section 3, TxLogEntry). -/
inductive TxType where
  | TxSent
  | TxReceived
  | TxSentCancelled
  | TxReceivedCancelled
  | ConfirmedCoinbase
  deriving DecidableEq, Repr

/-- Modelled from the spec: the TxLogEntry fields Cancel consults
(spec sections 3 and 4.1). -/
structure TxLogEntry where
  id : Nat
  tx_type : TxType
  confirmed : Bool
  deriving DecidableEq, Repr

/-- Modelled from the spec: a wallet-local output as Cancel sees it —
its status and the back-reference to the TxLogEntry that consumes it
(spec section 3, Output). -/
structure LedgerOutput where
  commit : Nat
  status : OutputStatus
  tx_log_entry : Nat
  deriving DecidableEq, Repr

/-- Modelled from the spec: the ledger state Cancel operates on — the
transaction log and the wallet-owned outputs (spec section 4.2). -/
structure WalletState where
  entries : List TxLogEntry
  outputs : List LedgerOutput
  deriving DecidableEq, Repr

/-- Marking an entry Cancelled (spec section 4.1, Cancel). -/
def cancelEntry (e : TxLogEntry) : TxLogEntry :=
  { e with tx_type :=
      match e.tx_type with
      | TxType.TxSent => TxType.TxSentCancelled
      | TxType.TxReceived => TxType.TxReceivedCancelled
      | t => t }

/-- An entry is cancellable when it is an unconfirmed sent or received
transaction; confirmed or already-cancelled entries are not
(spec section 4.1, Cancel). -/
def isCancellable (e : TxLogEntry) : Bool :=
  !e.confirmed &&
    (e.tx_type == TxType.TxSent || e.tx_type == TxType.TxReceived)

/-- Releasing one output of a cancelled transaction: a Locked output tied
to the entry returns to Unspent, every other output is untouched
(spec section 4.1, Cancel). -/
def releaseOutput (tx_id : Nat) (o : LedgerOutput) : LedgerOutput :=
  if o.tx_log_entry == tx_id && o.status == OutputStatus.Locked then
    { o with status := OutputStatus.Unspent }
  else o

/-- Modelled from the spec: Cancel(tx id) (spec section 4.1); the
libwallet implementation is not under src/, only its RPC caller
(src/api/src/owner_rpc.rs, lines 1341-1343). Looks the entry up, rejects
a missing id with NotFound and a confirmed or already-cancelled entry
with a reported TransactionNotCancellable conflict (leaving the state
untouched), and otherwise marks the entry Cancelled and releases its
Locked outputs back to Unspent. -/
def cancel_tx (st : WalletState) (tx_id : Nat) : Except ErrorKind WalletState :=
  match st.entries.find? (fun e => e.id == tx_id) with
  | none => Except.error ErrorKind.NotFound
  | some e =>
    if isCancellable e then
      Except.ok
        { entries := st.entries.map
            (fun x => if x.id == tx_id then cancelEntry x else x)
        , outputs := st.outputs.map (releaseOutput tx_id) }
    else
      Except.error ErrorKind.TransactionNotCancellable

/-- The slate schema versions this build can emit (spec section 6). -/
inductive SlateVersion where
  | V3
  deriving DecidableEq, Repr

/-- Modelled from the spec: the participant entry of the version-3 wire
schema, mirroring `ParticipantData` field for field. -/
structure ParticipantDataV3 where
  id : Nat
  public_blind_excess : Int
  public_nonce : Int
  part_sig : Option Int
  message : Option String
  message_sig : Option Int
  deriving DecidableEq, Repr

/-- Modelled from the spec: the kernel of the version-3 wire schema,
mirroring `TxKernel` field for field. -/
structure TxKernelV3 where
  features : KernelFeatures
  fee : Nat
  lock_height : Nat
  excess : Int
  excess_sig : Int
  deriving DecidableEq, Repr

/-- Modelled from the spec: the version-3 slate wire document
(spec section 6, Slate wire format); commitments serialize identically
across versions and reuse `Commit`. -/
structure SlateV3 where
  num_participants : Nat
  id : String
  tx_inputs : List Commit
  tx_outputs : List Commit
  tx_kernels : List TxKernelV3
  tx_offset : Int
  amount : Nat
  fee : Nat
  height : Nat
  lock_height : Nat
  ttl_cutoff_height : Option Nat
  participant_data : List ParticipantDataV3
  payment_proof : Option String
  version_info : VersionCompatInfo
  deriving DecidableEq, Repr

/-- A slate in an explicit wire schema version (spec section 6). -/
inductive VersionedSlate where
  | V3 (s : SlateV3)
  deriving DecidableEq, Repr

/-- Translation of `ParticipantData` to its v3 wire form. -/
def ParticipantData.toV3 (p : ParticipantData) : ParticipantDataV3 :=
  { id := p.id
  , public_blind_excess := p.public_blind_excess
  , public_nonce := p.public_nonce
  , part_sig := p.part_sig
  , message := p.message
  , message_sig := p.message_sig }

/-- A v3 wire participant entry back to `ParticipantData`. -/
def ParticipantDataV3.toSlate (p : ParticipantDataV3) : ParticipantData :=
  { id := p.id
  , public_blind_excess := p.public_blind_excess
  , public_nonce := p.public_nonce
  , part_sig := p.part_sig
  , message := p.message
  , message_sig := p.message_sig }

/-- Translation of `TxKernel` to its v3 wire form. -/
def TxKernel.toV3 (k : TxKernel) : TxKernelV3 :=
  { features := k.features
  , fee := k.fee
  , lock_height := k.lock_height
  , excess := k.excess
  , excess_sig := k.excess_sig }

/-- A v3 wire kernel back to `TxKernel`. -/
def TxKernelV3.toSlate (k : TxKernelV3) : TxKernel :=
  { features := k.features
  , fee := k.fee
  , lock_height := k.lock_height
  , excess := k.excess
  , excess_sig := k.excess_sig }

/-- Translation of `Slate` to its v3 wire form. -/
def Slate.toV3 (s : Slate) : SlateV3 :=
  { num_participants := s.num_participants
  , id := s.id
  , tx_inputs := s.tx_inputs
  , tx_outputs := s.tx_outputs
  , tx_kernels := s.tx_kernels.map TxKernel.toV3
  , tx_offset := s.tx_offset
  , amount := s.amount
  , fee := s.fee
  , height := s.height
  , lock_height := s.lock_height
  , ttl_cutoff_height := s.ttl_cutoff_height
  , participant_data := s.participant_data.map ParticipantData.toV3
  , payment_proof := s.payment_proof
  , version_info := s.version_info }

/-- A v3 wire slate back to `Slate`. -/
def SlateV3.toSlate (s : SlateV3) : Slate :=
  { num_participants := s.num_participants
  , id := s.id
  , tx_inputs := s.tx_inputs
  , tx_outputs := s.tx_outputs
  , tx_kernels := s.tx_kernels.map TxKernelV3.toSlate
  , tx_offset := s.tx_offset
  , amount := s.amount
  , fee := s.fee
  , height := s.height
  , lock_height := s.lock_height
  , ttl_cutoff_height := s.ttl_cutoff_height
  , participant_data := s.participant_data.map ParticipantDataV3.toSlate
  , payment_proof := s.payment_proof
  , version_info := s.version_info }

/-- Modelled from the spec: `VersionedSlate::into_version` (the
slate-versions layer is not under src/; its callers at
src/api/src/owner_rpc.rs lines 1302-1306 and 1325-1330 always pass
`SlateVersion::V3`). -/
def VersionedSlate.into_version (slate : Slate) (version : SlateVersion) :
    VersionedSlate :=
  match version with
  | SlateVersion.V3 => VersionedSlate.V3 (Slate.toV3 slate)

/-- Modelled from the spec: `Slate::from(VersionedSlate)`, the inverse
translation the RPC layer applies to every incoming versioned slate. -/
def Slate.fromVersioned : VersionedSlate → Slate
  | VersionedSlate.V3 s3 => SlateV3.toSlate s3

/-- A concrete complete two-party slate on which every Finalize check
passes: the input pays the output plus the fee, the partial signatures
are `r + e·x` over the aggregate nonce and excess, and the blinding
factors balance to the aggregate excess. Used to evaluate the theorems on
explicit data. -/
def exampleSlate : Slate :=
  { num_participants := 2
  , id := "0436430c-2b02-624c-2032-570501212b00"
  , tx_inputs := [{ value := 10, blind := 5 }]
  , tx_outputs := [{ value := 7, blind := 2 }]
  , tx_kernels := [{ features := KernelFeatures.Plain, fee := 3
                   , lock_height := 0, excess := 0, excess_sig := 0 }]
  , tx_offset := 0
  , amount := 7
  , fee := 3
  , height := 4
  , lock_height := 0
  , ttl_cutoff_height := none
  , participant_data :=
      [ { id := 0, public_blind_excess := -1, public_nonce := 4
        , part_sig := some 1, message := none, message_sig := none }
      , { id := 1, public_blind_excess := -2, public_nonce := 6
        , part_sig := some 0, message := none, message_sig := none } ]
  , payment_proof := none
  , version_info := { orig_version := 3, version := 3, block_header_version := 6 } }

/-- The slate Finalize returns on `exampleSlate`. -/
def exampleFinal : Slate :=
  { exampleSlate with tx_kernels := [finalKernel exampleSlate] }

/-- A wallet ledger on which every output is Unspent. -/
def exampleLedger : Commit → OutputStatus :=
  fun _ => OutputStatus.Unspent

/-- The ledger `exampleLedger` after locking the input of `exampleSlate`. -/
def exampleLockedLedger : Commit → OutputStatus :=
  fun c =>
    if c ∈ exampleSlate.tx_inputs then OutputStatus.Locked else exampleLedger c

/-- A ledger state with one unconfirmed sent transaction holding one
Locked output. -/
def exampleState : WalletState :=
  { entries := [{ id := 0, tx_type := TxType.TxSent, confirmed := false }]
  , outputs := [{ commit := 1, status := OutputStatus.Locked, tx_log_entry := 0 }] }

/-- The state `exampleState` after Cancel: entry marked cancelled, output released. -/
def exampleCancelled : WalletState :=
  { entries := [{ id := 0, tx_type := TxType.TxSentCancelled, confirmed := false }]
  , outputs := [{ commit := 1, status := OutputStatus.Unspent, tx_log_entry := 0 }] }

end EpicWallet

namespace EpicWallet

/-- C6: `get_version_info` degrades a 404-style error from the version
endpoint (reached only when nothing is cached) to the unverified "1.0.0"
placeholder instead of failing, and on a successful fetch returns the
node's info with `verified = Some(true)`. -/
theorem get_version_info_spec (c : HTTPNodeClient)
    (fetch : Except String NodeVersionInfo)
    (hcache : c.node_version_info = none) :
    (∀ e, fetch = Except.error e → containsSub e ("404") = true →
      (get_version_info c fetch).2 =
        some { node_version := "1.0.0"
             , block_header_version := 1
             , verified := some false }) ∧
    (∀ n, fetch = Except.ok n →
      (get_version_info c fetch).2 = some { n with verified := some true }) := by
  constructor
  · intro e hf h404
    subst hf
    simp [get_version_info, hcache, h404]
  · intro n hf
    subst hf
    simp [get_version_info, hcache]

/-- Witness for C6: both branches of `get_version_info_spec` evaluated at
a concrete empty-cache client, a concrete 404 error and a concrete
successful fetch. -/
theorem get_version_info_spec_witness :
    (get_version_info ⟨"http://127.0.0.1:3413", none, none⟩
        (Except.error "Request error: 404 Not Found")).2 =
      some { node_version := "1.0.0"
           , block_header_version := 1
           , verified := some false } ∧
    (get_version_info ⟨"http://127.0.0.1:3413", none, none⟩
        (Except.ok ⟨"3.0.0", 6, none⟩)).2 =
      some { node_version := "3.0.0"
           , block_header_version := 6
           , verified := some true } := by
  refine ⟨?_, ?_⟩
  · exact (get_version_info_spec ⟨"http://127.0.0.1:3413", none, none⟩
      (Except.error "Request error: 404 Not Found") rfl).1
      "Request error: 404 Not Found" rfl (by decide)
  · exact (get_version_info_spec ⟨"http://127.0.0.1:3413", none, none⟩
      (Except.ok ⟨"3.0.0", 6, none⟩) rfl).2 ⟨"3.0.0", 6, none⟩ rfl

/-- C7: for every start height and optional end height, a successful
`height_range_to_pmmr_indices` call returns the pair of PMMR positions
covering that height range, the low index first and the high index
second. -/
theorem height_range_to_pmmr_indices_spec
    (lowIndexOf highIndexOf : Nat → Nat) (head : Nat)
    (start_height : Nat) (end_height : Option Nat) :
    height_range_to_pmmr_indices
        (fun a b => Except.ok (nodeHeightsToPmmr lowIndexOf highIndexOf head a b))
        start_height end_height =
      Except.ok (lowIndexOf start_height, highIndexOf (end_height.getD head)) :=
  rfl

/-- C8: `post_tx` returns Ok exactly when the node accepted the
broadcast, surfaces any node failure as a `ClientCallback` error, and in
every case leaves the node client and the caller's wallet/ledger state
unchanged — no automatic rollback, the transaction record stays as it was
and remains retryable. -/
theorem post_tx_spec {α : Type} (c : HTTPNodeClient) (ledger : α)
    (fluff : Bool) (post : Bool → Except String Unit) :
    ((post_tx c ledger fluff post).1 = Except.ok () ↔ post fluff = Except.ok ()) ∧
    (∀ e, post fluff = Except.error e →
      (post_tx c ledger fluff post).1 =
        Except.error (ErrorKind.ClientCallback
          ("Posting transaction to node: " ++ e))) ∧
    (post_tx c ledger fluff post).2.1 = c ∧
    (post_tx c ledger fluff post).2.2 = ledger := by
  unfold post_tx
  cases h : post fluff <;> simp [h]

/-- Witness for C8: `post_tx_spec` evaluated at a concrete node failure
with a concrete ledger value — the error is reported and the ledger value
comes back unchanged. -/
theorem post_tx_spec_witness :
    (post_tx ⟨"http://127.0.0.1:3413", none, none⟩ (42 : Nat) false
        (fun _ => Except.error "connection refused")).1 =
      Except.error (ErrorKind.ClientCallback
        ("Posting transaction to node: " ++ "connection refused")) ∧
    (post_tx ⟨"http://127.0.0.1:3413", none, none⟩ (42 : Nat) false
        (fun _ => Except.error "connection refused")).2.2 = 42 := by
  refine ⟨?_, ?_⟩
  · exact (post_tx_spec ⟨"http://127.0.0.1:3413", none, none⟩ (42 : Nat) false
      (fun _ => Except.error "connection refused")).2.1 "connection refused" rfl
  · exact (post_tx_spec ⟨"http://127.0.0.1:3413", none, none⟩ (42 : Nat) false
      (fun _ => Except.error "connection refused")).2.2.2

/-- C9: `get_kernel` never performs a kernel lookup against an old node:
whatever the lookup would have returned, it yields a `ClientCallback`
error when version info is unavailable, when the reported version does
not parse, and when the parsed version is at most 2.0.0 — which covers
the degraded "1.0.0" placeholder a 404 answer produces. -/
theorem get_kernel_spec (c : HTTPNodeClient)
    (fetchVersion : Except String NodeVersionInfo)
    (lookup : Except String (Option LocatedTxKernel)) :
    ((get_version_info c fetchVersion).2 = none →
      (get_kernel c fetchVersion lookup).2 =
        Except.error (ErrorKind.ClientCallback ("Unable to get version"))) ∧
    (∀ vi, (get_version_info c fetchVersion).2 = some vi →
      versionParse vi.node_version = none →
      (get_kernel c fetchVersion lookup).2 =
        Except.error (ErrorKind.ClientCallback ("Unable to parse version"))) ∧
    (∀ vi v, (get_version_info c fetchVersion).2 = some vi →
      versionParse vi.node_version = some v →
      SemVer.le v { major := 2, minor := 0, patch := 0 } = true →
      (get_kernel c fetchVersion lookup).2 =
        Except.error (ErrorKind.ClientCallback
          ("Kernel lookup not supported by node, please upgrade it"))) := by
  refine ⟨?_, ?_, ?_⟩
  · intro h
    simp [get_kernel, h]
  · intro vi hvi hparse
    simp [get_kernel, hvi, hparse]
  · intro vi v hvi hparse hle
    simp [get_kernel, hvi, hparse, hle]

/-- Witness for C9: a cache-less client whose version endpoint answers
404 gets the "1.0.0" placeholder, and the kernel lookup is refused with a
`ClientCallback` error even though the lookup itself would have
succeeded. -/
theorem get_kernel_spec_witness :
    (get_version_info ⟨"http://127.0.0.1:3413", none, none⟩
        (Except.error "Request error: 404 Not Found")).2 =
      some { node_version := "1.0.0", block_header_version := 1
           , verified := some false } ∧
    versionParse "1.0.0" = some { major := 1, minor := 0, patch := 0 } ∧
    (get_kernel ⟨"http://127.0.0.1:3413", none, none⟩
        (Except.error "Request error: 404 Not Found")
        (Except.ok none)).2 =
      Except.error (ErrorKind.ClientCallback
        ("Kernel lookup not supported by node, please upgrade it")) := by
  refine ⟨by decide, by decide, ?_⟩
  exact (get_kernel_spec ⟨"http://127.0.0.1:3413", none, none⟩
      (Except.error "Request error: 404 Not Found") (Except.ok none)).2.2
    { node_version := "1.0.0", block_header_version := 1, verified := some false }
    { major := 1, minor := 0, patch := 0 }
    (by decide) (by decide) (by decide)

/-- C10: `wallet_command` exits 1 without dispatching the requested
subcommand whenever the node reports a version parsing below 3.0.0 —
including the "1.0.0" placeholder produced on a 404 — while an entirely
unreachable node (no version info) lets the command proceed offline. -/
theorem wallet_command_spec (versionInfo : Option NodeVersionInfo)
    (commandResult : Except String Unit) :
    (∀ v sv, versionInfo = some v →
      versionParse v.node_version = some sv →
      SemVer.lt sv { major := 3, minor := 0, patch := 0 } = true →
      wallet_command versionInfo commandResult =
        { exit_code := 1, subcommand_ran := false }) ∧
    (versionInfo = none →
      (wallet_command versionInfo commandResult).subcommand_ran = true) ∧
    wallet_command
        (some { node_version := "1.0.0", block_header_version := 1
              , verified := some false }) commandResult =
      { exit_code := 1, subcommand_ran := false } := by
  refine ⟨?_, ?_, ?_⟩
  · intro v sv hv hparse hlt
    subst hv
    have hmin : versionParse MIN_COMPAT_NODE_VERSION =
        some { major := 3, minor := 0, patch := 0 } := by decide
    simp [wallet_command, hparse, hmin, parsedVersionLt, hlt]
  · intro h
    subst h
    cases commandResult <;> simp [wallet_command, runSubcommand]
  · have h : parsedVersionLt (versionParse ("1.0.0"))
        (versionParse MIN_COMPAT_NODE_VERSION) = true := by decide
    simp [wallet_command, h]

/-- Witness for C10: a node reporting 2.0.0 blocks the subcommand with
exit code 1, and an unreachable node lets it run. -/
theorem wallet_command_spec_witness :
    wallet_command
        (some { node_version := "2.0.0", block_header_version := 6
              , verified := some true }) (Except.ok ()) =
      { exit_code := 1, subcommand_ran := false } ∧
    (wallet_command none (Except.ok ())).subcommand_ran = true := by
  refine ⟨?_, ?_⟩
  · exact (wallet_command_spec
      (some { node_version := "2.0.0", block_header_version := 6
            , verified := some true }) (Except.ok ())).1
      { node_version := "2.0.0", block_header_version := 6, verified := some true }
      { major := 2, minor := 0, patch := 0 } rfl (by decide) (by decide)
  · exact (wallet_command_spec none (Except.ok ())).2.1 rfl

/-- C1: every finalized slate's kernel satisfies conservation — the
plaintext output values plus the fee equal the plaintext input values,
and the aggregate kernel balances: the commitment left of outputs minus
inputs once the fee is paid is exactly the blinded (zero-value) excess of
the kernel. -/
theorem finalize_tx_conservation (s s2 : Slate)
    (h : finalize_tx s = Except.ok s2) :
    ∃ k, s2.tx_kernels = [k] ∧
      sumValues s2.tx_outputs + (s2.fee : Int) = sumValues s2.tx_inputs ∧
      Commit.mk
          (sumValues s2.tx_outputs + (s2.fee : Int) - sumValues s2.tx_inputs)
          (sumBlinds s2.tx_outputs - sumBlinds s2.tx_inputs) =
        Commit.mk 0 k.excess := by
  by_cases hc : slateComplete s
  · by_cases ha : aggregationOk s
    · have hs2 : { s with tx_kernels := [finalKernel s] } = s2 := by
        simpa [finalize_tx, hc, ha] using h
      have hagg : verifyKernelSig (finalKernel s) (sumPublicNonces s) = true ∧
          conservationOk s (sumPublicExcesses s) = true := by
        have hh := ha
        rw [show aggregationOk s =
            (verifyKernelSig (finalKernel s) (sumPublicNonces s) &&
              conservationOk s (sumPublicExcesses s)) from rfl
          , Bool.and_eq_true] at hh
        exact hh
      obtain ⟨h1, h2⟩ :
          (sumValues s.tx_outputs + (s.fee : Int) == sumValues s.tx_inputs) = true ∧
          (sumBlinds s.tx_outputs == sumBlinds s.tx_inputs + sumPublicExcesses s) = true := by
        have hh := hagg.2
        rw [show conservationOk s (sumPublicExcesses s) =
            ((sumValues s.tx_outputs + (s.fee : Int) == sumValues s.tx_inputs) &&
              (sumBlinds s.tx_outputs == sumBlinds s.tx_inputs + sumPublicExcesses s)) from rfl
          , Bool.and_eq_true] at hh
        exact hh
      have hv : sumValues s.tx_outputs + (s.fee : Int) = sumValues s.tx_inputs :=
        beq_iff_eq.mp h1
      have hb : sumBlinds s.tx_outputs = sumBlinds s.tx_inputs + sumPublicExcesses s :=
        beq_iff_eq.mp h2
      refine ⟨finalKernel s, ?_, ?_, ?_⟩
      · rw [← hs2]
      · rw [← hs2]; exact hv
      · rw [← hs2]
        simp only [Commit.mk.injEq, finalKernel]
        constructor <;> omega
    · simp [finalize_tx, hc, ha] at h
  · simp [finalize_tx, hc] at h

/-- Witness for C1: `finalize_tx_conservation` applied to the concrete
complete slate `exampleSlate`, whose finalization succeeds. -/
theorem finalize_tx_conservation_witness :
    finalize_tx exampleSlate = Except.ok exampleFinal ∧
    ∃ k, exampleFinal.tx_kernels = [k] ∧
      sumValues exampleFinal.tx_outputs + (exampleFinal.fee : Int) =
        sumValues exampleFinal.tx_inputs ∧
      Commit.mk
          (sumValues exampleFinal.tx_outputs + (exampleFinal.fee : Int) -
            sumValues exampleFinal.tx_inputs)
          (sumBlinds exampleFinal.tx_outputs - sumBlinds exampleFinal.tx_inputs) =
        Commit.mk 0 k.excess :=
  ⟨rfl, finalize_tx_conservation exampleSlate exampleFinal rfl⟩

/-- C2: Finalize succeeds only on a slate with a full complement of
participants all holding partial signatures, and then the returned
kernel's aggregate signature verifies against the kernel message (fee,
lock height, features); an incomplete slate fails with
IncompleteParticipantData and a complete slate whose aggregation checks
fail yields SignatureAggregationFailed — an unverifiable kernel is never
returned. -/
theorem finalize_tx_spec (s : Slate) :
    (∀ s2, finalize_tx s = Except.ok s2 →
      slateComplete s = true ∧
      s2.tx_kernels = [finalKernel s] ∧
      verifyKernelSig (finalKernel s) (sumPublicNonces s) = true) ∧
    (slateComplete s = false →
      finalize_tx s = Except.error ErrorKind.IncompleteParticipantData) ∧
    (slateComplete s = true → aggregationOk s = false →
      finalize_tx s = Except.error ErrorKind.SignatureAggregationFailed) := by
  refine ⟨?_, ?_, ?_⟩
  · intro s2 h
    by_cases hc : slateComplete s
    · by_cases ha : aggregationOk s
      · have hs2 : { s with tx_kernels := [finalKernel s] } = s2 := by
          simpa [finalize_tx, hc, ha] using h
        have hagg : verifyKernelSig (finalKernel s) (sumPublicNonces s) = true ∧
            conservationOk s (sumPublicExcesses s) = true := by
          have hh := ha
          rw [show aggregationOk s =
              (verifyKernelSig (finalKernel s) (sumPublicNonces s) &&
                conservationOk s (sumPublicExcesses s)) from rfl
            , Bool.and_eq_true] at hh
          exact hh
        refine ⟨hc, ?_, hagg.1⟩
        rw [← hs2]
      · simp [finalize_tx, hc, ha] at h
    · simp [finalize_tx, hc] at h
  · intro hc
    simp [finalize_tx, hc]
  · intro hc ha
    simp [finalize_tx, hc, ha]

/-- Witness for C2: the complete `exampleSlate` finalizes into a kernel
whose aggregate signature verifies, and stripping its participant data
makes Finalize fail with IncompleteParticipantData. -/
theorem finalize_tx_spec_witness :
    (slateComplete exampleSlate = true ∧
      exampleFinal.tx_kernels = [finalKernel exampleSlate] ∧
      verifyKernelSig (finalKernel exampleSlate) (sumPublicNonces exampleSlate) = true) ∧
    finalize_tx { exampleSlate with participant_data := [] } =
      Except.error ErrorKind.IncompleteParticipantData := by
  refine ⟨?_, ?_⟩
  · exact (finalize_tx_spec exampleSlate).1 exampleFinal rfl
  · exact (finalize_tx_spec { exampleSlate with participant_data := [] }).2.1 (by decide)

/-- C3: a successful lock transitions each of the slate's selected input
outputs from Unspent to Locked and touches nothing else; if any selected
output is not Unspent at lock time the whole lock fails with
OutputAlreadyLocked; consequently, of two lock attempts over slates
selecting an overlapping output set, the one applied second fails with
OutputAlreadyLocked once the first has succeeded. -/
theorem tx_lock_outputs_spec (s : Slate) (ledger : Commit → OutputStatus) :
    (∀ L2, tx_lock_outputs s ledger = Except.ok L2 →
      (∀ c, c ∈ s.tx_inputs →
        ledger c = OutputStatus.Unspent ∧ L2 c = OutputStatus.Locked) ∧
      (∀ c, c ∉ s.tx_inputs → L2 c = ledger c)) ∧
    ((∃ c, c ∈ s.tx_inputs ∧ ledger c ≠ OutputStatus.Unspent) →
      tx_lock_outputs s ledger = Except.error ErrorKind.OutputAlreadyLocked) ∧
    (∀ s2 L2 c, tx_lock_outputs s ledger = Except.ok L2 →
      c ∈ s.tx_inputs → c ∈ s2.tx_inputs →
      tx_lock_outputs s2 L2 = Except.error ErrorKind.OutputAlreadyLocked) := by
  refine ⟨?_, ?_, ?_⟩
  · intro L2 h
    by_cases hall : s.tx_inputs.all (fun x => ledger x == OutputStatus.Unspent)
    · have hL2 : (fun c =>
          if c ∈ s.tx_inputs then OutputStatus.Locked else ledger c) = L2 := by
        simpa [tx_lock_outputs, hall] using h
      constructor
      · intro c hm
        refine ⟨beq_iff_eq.mp (List.all_eq_true.mp hall c hm), ?_⟩
        rw [← hL2]
        simp [hm]
      · intro c hm
        rw [← hL2]
        simp [hm]
    · simp [tx_lock_outputs, hall] at h
  · rintro ⟨c, hm, hne⟩
    have hall : (s.tx_inputs.all (fun x => ledger x == OutputStatus.Unspent)) = false := by
      rw [Bool.eq_false_iff]
      intro hcon
      exact hne (beq_iff_eq.mp (List.all_eq_true.mp hcon c hm))
    simp [tx_lock_outputs, hall]
  · intro s2 L2 c h hmA hmB
    by_cases hall : s.tx_inputs.all (fun x => ledger x == OutputStatus.Unspent)
    · have hL2 : (fun x =>
          if x ∈ s.tx_inputs then OutputStatus.Locked else ledger x) = L2 := by
        simpa [tx_lock_outputs, hall] using h
      have hLc : L2 c = OutputStatus.Locked := by
        rw [← hL2]
        simp [hmA]
      have hall2 : (s2.tx_inputs.all (fun x => L2 x == OutputStatus.Unspent)) = false := by
        rw [Bool.eq_false_iff]
        intro hcon
        have hu := beq_iff_eq.mp (List.all_eq_true.mp hcon c hmB)
        rw [hLc] at hu
        simp at hu
      simp [tx_lock_outputs, hall2]
    · simp [tx_lock_outputs, hall] at h

/-- Witness for C3: locking `exampleSlate`'s input on an all-Unspent
ledger succeeds and locks it; a second, overlapping lock attempt on the
resulting ledger fails with OutputAlreadyLocked. -/
theorem tx_lock_outputs_spec_witness :
    tx_lock_outputs exampleSlate exampleLedger = Except.ok exampleLockedLedger ∧
    exampleLedger { value := 10, blind := 5 } = OutputStatus.Unspent ∧
    exampleLockedLedger { value := 10, blind := 5 } = OutputStatus.Locked ∧
    tx_lock_outputs exampleSlate exampleLockedLedger =
      Except.error ErrorKind.OutputAlreadyLocked := by
  refine ⟨rfl, rfl, by decide, ?_⟩
  exact (tx_lock_outputs_spec exampleSlate exampleLedger).2.2 exampleSlate
    exampleLockedLedger { value := 10, blind := 5 } rfl (by decide) (by decide)

/-- Marking an entry cancelled keeps its id. -/
theorem cancelEntry_id (e : TxLogEntry) : (cancelEntry e).id = e.id := rfl

/-- Releasing the outputs of one transaction is idempotent: a released
output is no longer Locked, so a second release leaves it alone. -/
theorem releaseOutput_idem (tx_id : Nat) (o : LedgerOutput) :
    releaseOutput tx_id (releaseOutput tx_id o) = releaseOutput tx_id o := by
  unfold releaseOutput
  by_cases h : (o.tx_log_entry == tx_id && o.status == OutputStatus.Locked) = true <;>
    simp [h]

/-- Looking an entry up by id commutes with the cancel rewrite of the
entry list, because marking an entry cancelled keeps its id. -/
theorem find?_map_cancel (tx_id : Nat) (l : List TxLogEntry) (e : TxLogEntry)
    (h : l.find? (fun x => x.id == tx_id) = some e) :
    (l.map (fun x => if x.id == tx_id then cancelEntry x else x)).find?
        (fun x => x.id == tx_id) = some (cancelEntry e) := by
  induction l with
  | nil => simp at h
  | cons a l ih =>
    rw [List.map_cons]
    by_cases ha : ((a.id == tx_id) = true)
    · have hae : a = e := by
        have hstep := List.find?_cons_of_pos (p := fun x => x.id == tx_id) l ha
        rw [hstep] at h
        exact Option.some.inj h
      have hpa : (((if a.id == tx_id then cancelEntry a else a).id == tx_id) = true) := by
        simp [ha, cancelEntry_id]
      have hstep2 := List.find?_cons_of_pos (p := fun x => x.id == tx_id)
        (l.map (fun x => if x.id == tx_id then cancelEntry x else x)) hpa
      rw [hstep2, if_pos ha, hae]
    · have hstep := List.find?_cons_of_neg (p := fun x => x.id == tx_id) l ha
      rw [hstep] at h
      have hpa : ¬ (((if a.id == tx_id then cancelEntry a else a).id == tx_id) = true) := by
        simp [ha, cancelEntry_id]
      have hstep2 := List.find?_cons_of_neg (p := fun x => x.id == tx_id)
        (l.map (fun x => if x.id == tx_id then cancelEntry x else x)) hpa
      rw [hstep2]
      exact ih h

/-- C4: Cancel is idempotent — after a successful cancel, a second call
on the same tx id is a reported TransactionNotCancellable conflict
(never a crash) that leaves the ledger in the same terminal state, and
in that state releasing the transaction's outputs again changes nothing
(no double-unlock); cancelling a confirmed entry is likewise a reported
conflict. -/
theorem cancel_tx_idempotent (st : WalletState) (tx_id : Nat) :
    (∀ st1, cancel_tx st tx_id = Except.ok st1 →
      cancel_tx st1 tx_id = Except.error ErrorKind.TransactionNotCancellable ∧
      st1.outputs.map (releaseOutput tx_id) = st1.outputs) ∧
    (∀ e, st.entries.find? (fun x => x.id == tx_id) = some e →
      e.confirmed = true →
      cancel_tx st tx_id = Except.error ErrorKind.TransactionNotCancellable) := by
  refine ⟨?_, ?_⟩
  · intro st1 h
    cases hf : st.entries.find? (fun x => x.id == tx_id) with
    | none => simp [cancel_tx, hf] at h
    | some e =>
      by_cases hcan : isCancellable e = true
      · have hst1 : WalletState.mk
            (st.entries.map (fun x => if x.id == tx_id then cancelEntry x else x))
            (st.outputs.map (releaseOutput tx_id)) = st1 := by
          simpa [cancel_tx, hf, hcan] using h
        have hfind2 := find?_map_cancel tx_id st.entries e hf
        have hnc : isCancellable (cancelEntry e) = false := by
          have h2 : (e.tx_type == TxType.TxSent || e.tx_type == TxType.TxReceived) = true := by
            have hh := hcan
            rw [show isCancellable e =
                (!e.confirmed &&
                  (e.tx_type == TxType.TxSent || e.tx_type == TxType.TxReceived)) from rfl
              , Bool.and_eq_true] at hh
            exact hh.2
          cases htt : e.tx_type <;>
            simp [htt] at h2 <;>
            simp [isCancellable, cancelEntry, htt]
        constructor
        · rw [← hst1]
          simp only [cancel_tx]
          rw [hfind2]
          simp [hnc]
        · rw [← hst1]
          show (st.outputs.map (releaseOutput tx_id)).map (releaseOutput tx_id) =
            st.outputs.map (releaseOutput tx_id)
          rw [List.map_map]
          refine List.map_congr_left ?_
          intro o _
          show releaseOutput tx_id (releaseOutput tx_id o) = releaseOutput tx_id o
          exact releaseOutput_idem tx_id o
      · simp [cancel_tx, hf, hcan] at h
  · intro e hf hconf
    have hnc : isCancellable e = false := by
      simp [isCancellable, hconf]
    simp [cancel_tx, hf, hnc]

/-- Witness for C4: cancelling the one-entry `exampleState` succeeds and
releases its Locked output; `cancel_tx_idempotent` then gives that the
second cancel is a reported conflict and releases nothing further. -/
theorem cancel_tx_idempotent_witness :
    cancel_tx exampleState 0 = Except.ok exampleCancelled ∧
    cancel_tx exampleCancelled 0 =
      Except.error ErrorKind.TransactionNotCancellable ∧
    exampleCancelled.outputs.map (releaseOutput 0) = exampleCancelled.outputs := by
  refine ⟨rfl, ?_, ?_⟩
  · exact ((cancel_tx_idempotent exampleState 0).1 exampleCancelled rfl).1
  · exact ((cancel_tx_idempotent exampleState 0).1 exampleCancelled rfl).2

/-- Translating a kernel to the v3 wire schema and back is the
identity. -/
theorem kernelToV3ToSlate (k : TxKernel) :
    TxKernelV3.toSlate (TxKernel.toV3 k) = k := by
  cases k
  rfl

/-- Translating a participant entry to the v3 wire schema and back is
the identity. -/
theorem participantToV3ToSlate (p : ParticipantData) :
    ParticipantDataV3.toSlate (ParticipantData.toV3 p) = p := by
  cases p
  rfl

/-- C5: converting any slate to a version-3 `VersionedSlate` via
`into_version` and back via the `Slate` translation is the identity on
the whole slate — in particular on every field the protocol inspects
(id, amount, fee, heights, participant ids, excesses, nonces, signatures,
kernel fields, offset, version metadata). -/
theorem slate_v3_round_trip (s : Slate) :
    Slate.fromVersioned (VersionedSlate.into_version s SlateVersion.V3) = s := by
  have hk : (TxKernelV3.toSlate ∘ TxKernel.toV3) = id :=
    funext fun k => kernelToV3ToSlate k
  have hp : (ParticipantDataV3.toSlate ∘ ParticipantData.toV3) = id :=
    funext fun p => participantToV3ToSlate p
  cases s
  simp [VersionedSlate.into_version, Slate.fromVersioned, Slate.toV3, SlateV3.toSlate,
    List.map_map, hk, hp]

end EpicWallet
